import Mathlib

/-!
Shallow embedding of the moveinsync-sentinel alert-lifecycle core:
the Alert state machine (backend/models/Alert.js) and the RuleEngine
(services/ruleEngine.js), together with the batch processor.
Time is modelled as milliseconds since the epoch (Int); the JavaScript
`Date.now()` clock is passed explicitly.  Persistence and the history
log are modelled as explicit state; exceptions thrown while evaluating
or persisting a single alert are modelled by per-alert fault sets.
-/

/-- Alert status enum of the Alert schema:
OPEN, ESCALATED, AUTO_CLOSED, RESOLVED. -/
inductive Status where
  | OPEN
  | ESCALATED
  | AUTO_CLOSED
  | RESOLVED
deriving DecidableEq

/-- Alert severity enum: INFO, WARNING, CRITICAL. -/
inductive Severity where
  | INFO
  | WARNING
  | CRITICAL
deriving DecidableEq

/-- A JavaScript-ish metadata value as stored through the Alert schema:
booleans, numbers, strings and Date values (schema casts `expiryDate`
to Date and `speed`/`speedLimit`/`feedbackRating` to Number). -/
inductive JsVal where
  | bool (b : Bool)
  | num (n : Int)
  | str (s : String)
  | date (t : Int)
deriving DecidableEq

/-- JavaScript truthiness of a metadata value (Date objects are always
truthy; 0 and the empty string are falsy). -/
def jsTruthy : JsVal → Bool
  | .bool b => b
  | .num n => decide (n ≠ 0)
  | .str s => decide (s ≠ "")
  | .date _ => true

/-- Numeric view of a metadata value (the schema types `speed`,
`speedLimit` and `feedbackRating` as Number). -/
def toNum : JsVal → Option Int
  | .num n => some n
  | _ => none

/-- Date view of a metadata value (the schema types `expiryDate` as
Date). -/
def toTime : JsVal → Option Int
  | .date t => some t
  | _ => none

/-- JavaScript truthiness of an optional numeric rule condition:
absent and 0 are falsy (`if (conditions.escalate_if_count && ...)`). -/
def numTruthy : Option Int → Bool
  | none => false
  | some n => decide (n ≠ 0)

/-- JavaScript truthiness of an optional string rule condition:
absent and the empty string are falsy. -/
def strTruthy : Option String → Bool
  | none => false
  | some s => decide (s ≠ "")

/-- The Alert document (backend/models/Alert.js).  The metadata
subdocument is an open map from field names to values; optional
temporal fields are absent until the corresponding transition. -/
structure Alert where
  alertId : String
  sourceType : String
  severity : Severity
  status : Status
  timestamp : Int
  metadata : List (String × JsVal)
  escalatedAt : Option Int := none
  autoClosedAt : Option Int := none
  resolvedAt : Option Int := none
  closureReason : Option String := none
  resolvedBy : Option String := none
  notes : Option String := none
deriving DecidableEq

/-- alertSchema.methods.escalate: guarded on status OPEN; sets status
ESCALATED, forces severity CRITICAL, stamps escalatedAt, and sets notes
to the reason or the default when the reason is falsy (empty). -/
def Alert.escalate (a : Alert) (now : Int) (reason : String) : Alert :=
  if a.status = Status.OPEN then
    { a with
      status := Status.ESCALATED
      severity := Severity.CRITICAL
      escalatedAt := some now
      notes := some (if reason = "" then "Auto-escalated by rule engine" else reason) }
  else a

/-- alertSchema.methods.autoClose: guarded on status OPEN or ESCALATED;
sets status AUTO_CLOSED, stamps autoClosedAt, records the closure
reason. -/
def Alert.autoClose (a : Alert) (now : Int) (reason : String) : Alert :=
  if a.status = Status.OPEN ∨ a.status = Status.ESCALATED then
    { a with
      status := Status.AUTO_CLOSED
      autoClosedAt := some now
      closureReason := some reason }
  else a

/-- alertSchema.methods.resolve: no guard at all; sets status RESOLVED,
stamps resolvedAt, records the resolving user and the notes. -/
def Alert.resolve (a : Alert) (now : Int) (userId : Option String)
    (notes : Option String) : Alert :=
  { a with
    status := Status.RESOLVED
    resolvedAt := some now
    resolvedBy := userId
    notes := notes }

/-- The conditions subdocument of the Rule schema; absent fields are
`none`. -/
structure Conditions where
  escalate_if_count : Option Int := none
  window_mins : Option Int := none
  auto_close_if : Option String := none
  auto_close_after_mins : Option Int := none
deriving DecidableEq

/-- The Rule document (models/Rule.js), restricted to the fields the
rule engine reads. -/
structure Rule where
  ruleId : String
  sourceType : String
  enabled : Bool
  priority : Int
  conditions : Conditions
deriving DecidableEq

/-- One AlertHistory document as created by AlertHistory.logTransition:
the metadata `{ rule: ... }` is kept as the optional rule id. -/
structure HistoryEntry where
  alertId : String
  fromStatus : Option Status
  toStatus : Status
  reason : String
  triggeredBy : String
  userId : Option String
  ruleId : Option String
deriving DecidableEq

/-- JavaScript `Map.prototype.set`: replace the value at an existing
key in place, otherwise append the binding at the end. -/
def mapSet (m : List (String × Rule)) (k : String) (v : Rule) :
    List (String × Rule) :=
  match m with
  | [] => [(k, v)]
  | (k', v') :: rest =>
      if k' = k then (k, v) :: rest else (k', v') :: mapSet rest k v

/-- The last rule in the list whose sourceType is `t`, if any: the
binding that survives repeated `Map.set` insertions for key `t`. -/
def lastMatching (rs : List Rule) (t : String) : Option Rule :=
  match rs with
  | [] => none
  | r :: rest =>
      match lastMatching rest t with
      | some r' => some r'
      | none => if r.sourceType = t then some r else none

/-- The RuleEngine's in-memory state: the Map from source type to rule
built by `initialize`.  (The lazy-initialization flag only triggers the
same rule load and is not separately modelled; the embedding describes
the engine after its rules are loaded.) -/
structure RuleEngine where
  rules : List (String × Rule)
deriving DecidableEq

/-- RuleEngine.initialize, applied to the rule list delivered by
`Rule.find({ enabled: true }).sort({ priority: -1 })`: clears the Map
and inserts every rule keyed by its sourceType, in list order, later
insertions overwriting earlier ones. -/
def RuleEngine.initRules (rs : List Rule) : RuleEngine :=
  ⟨rs.foldl (fun m r => mapSet m r.sourceType r) []⟩

/-- RuleEngine.getRule: Map lookup by source type. -/
def RuleEngine.getRule (e : RuleEngine) (t : String) : Option Rule :=
  e.rules.lookup t

/-- The collaborator state an evaluation reads: the clock
(`Date.now()`) and the stored alert collection that
`Alert.countDocuments` queries. -/
structure Env where
  now : Int
  stored : List Alert
deriving DecidableEq

/-- The `Alert.countDocuments` query issued by evaluateAlert: stored
alerts with the same sourceType, the same `metadata.driverId`, status
OPEN or ESCALATED, and `timestamp: { $gte: windowStart }` (note: the
query has no upper time bound). -/
def countSimilar (stored : List Alert) (a : Alert) (windowStart : Int) : Nat :=
  (stored.filter (fun b => decide (b.sourceType = a.sourceType ∧
      b.metadata.lookup "driverId" = a.metadata.lookup "driverId" ∧
      windowStart ≤ b.timestamp ∧
      (b.status = Status.OPEN ∨ b.status = Status.ESCALATED)))).length

/-- Modelled from the spec's words (for comparison with the code's
query): the count of stored alerts with status OPEN or ESCALATED, the
same source type and the same `metadata.driverId`, whose timestamp lies
within the closed interval `[now − window minutes, now]`. -/
def specCountInWindow (stored : List Alert) (a : Alert) (now window : Int) : Nat :=
  (stored.filter (fun b => decide (b.sourceType = a.sourceType ∧
      b.metadata.lookup "driverId" = a.metadata.lookup "driverId" ∧
      now - window * 60 * 1000 ≤ b.timestamp ∧ b.timestamp ≤ now ∧
      (b.status = Status.OPEN ∨ b.status = Status.ESCALATED)))).length

/-- The escalation reason template string. -/
def escalationReason (cnt : Nat) (sourceType : String) (window : Int) : String :=
  s!"{cnt} {sourceType} alerts detected within {window} minutes"

/-- The condition-met reason template string. -/
def condReason (cond : String) : String :=
  s!"Condition met: {cond}"

/-- The aged-out reason template string. -/
def ageReason (mins : Int) : String :=
  s!"Alert aged beyond {mins} minutes"

/-- RuleEngine.evaluateCloseCondition: the fixed catalogue of close
predicates over the alert metadata, with a raw boolean metadata lookup
as the fallback for any other name. -/
def evaluateCloseCondition (condition : String)
    (metadata : List (String × JsVal)) (now : Int) : Bool :=
  if condition = "document_valid" then
    decide (metadata.lookup "documentValid" = some (JsVal.bool true)) ||
      (match metadata.lookup "expiryDate" with
       | some v =>
           jsTruthy v &&
             (match toTime v with
              | some t => decide (now < t)
              | none => false)
       | none => false)
  else if condition = "speed_normalized" then
    match (metadata.lookup "speed").bind toNum,
        (metadata.lookup "speedLimit").bind toNum with
    | some s, some l => decide (s ≤ l)
    | _, _ => false
  else if condition = "feedback_improved" then
    match (metadata.lookup "feedbackRating").bind toNum with
    | some r => decide (3 ≤ r)
    | none => false
  else
    decide (metadata.lookup condition = some (JsVal.bool true))

/-- The structure returned by RuleEngine.evaluateAlert.  In the
no-active-rule path the absent reason and rule are modelled as the
empty string and `none`. -/
structure EvalResult where
  shouldEscalate : Bool
  shouldAutoClose : Bool
  reason : String
  rule : Option Rule
deriving DecidableEq

/-- RuleEngine.evaluateAlert: look up the rule for the alert's source
type (no action when missing or disabled); run the three independent
condition checks, each setting its flag and overwriting the single
reason variable exactly as the source does. -/
def RuleEngine.evaluateAlert (e : RuleEngine) (env : Env) (a : Alert) :
    EvalResult :=
  match e.getRule a.sourceType with
  | none => ⟨false, false, "", none⟩
  | some rule =>
      if rule.enabled = false then ⟨false, false, "", none⟩
      else
        let c := rule.conditions
        let windowStart := env.now - c.window_mins.getD 0 * 60 * 1000
        let escalationFires :=
          numTruthy c.escalate_if_count && numTruthy c.window_mins &&
            decide ((countSimilar env.stored a windowStart : Int) ≥
              c.escalate_if_count.getD 0)
        let reason1 :=
          if escalationFires then
            escalationReason (countSimilar env.stored a windowStart)
              a.sourceType (c.window_mins.getD 0)
          else ""
        let condFires :=
          strTruthy c.auto_close_if &&
            evaluateCloseCondition (c.auto_close_if.getD "") a.metadata env.now
        let reason2 := if condFires then condReason (c.auto_close_if.getD "") else reason1
        let ageFires :=
          numTruthy c.auto_close_after_mins &&
            decide (env.now - a.timestamp ≥
              c.auto_close_after_mins.getD 0 * 60 * 1000)
        let reason3 := if ageFires then ageReason (c.auto_close_after_mins.getD 0) else reason2
        ⟨escalationFires, condFires || ageFires, reason3, some rule⟩

/-- Per-alert fault model for the exceptions processAlert catches: an
alert id in `evalFails` makes its evaluation (the count query) throw;
an id in `saveFails` makes `alert.save()` throw.  A thrown exception is
caught by processAlert's try/catch. -/
structure Faults where
  evalFails : List String
  saveFails : List String
deriving DecidableEq

/-- The persistent state processAlert touches: the stored alert
collection and the append-only history log. -/
structure PAState where
  stored : List Alert
  history : List HistoryEntry
deriving DecidableEq

/-- The value returned by processAlert: `{ success, modified,
evaluation }` on the normal path, `{ success: false }` from the catch
block. -/
structure ProcResult where
  success : Bool
  modified : Bool
  evaluation : Option EvalResult
deriving DecidableEq

/-- Full outcome of a processAlert call: the new persistent state, the
returned result, and the in-memory alert object after the call (its
mutations survive even when a save throws). -/
structure PAOut where
  st : PAState
  res : ProcResult
  alert : Alert
deriving DecidableEq

/-- Mongoose `save`: update the stored document with the same alertId,
or insert the document if it is not stored yet. -/
def saveAlert (stored : List Alert) (a : Alert) : List Alert :=
  if stored.any (fun b => b.alertId == a.alertId) then
    stored.map (fun b => if b.alertId == a.alertId then a else b)
  else stored ++ [a]

/-- The history entry logged for one transition taken by processAlert
(actor RULE_ENGINE, no user, the fired rule's id as metadata). -/
def engineEntry (a : Alert) (fromStatus : Status) (toStatus : Status)
    (ev : EvalResult) : HistoryEntry :=
  ⟨a.alertId, some fromStatus, toStatus, ev.reason, "RULE_ENGINE", none,
    ev.rule.map Rule.ruleId⟩

/-- RuleEngine.processAlert: evaluate, then escalate when
`shouldEscalate` and the status is OPEN (save + log), then auto-close
when `shouldAutoClose` and the status is OPEN or ESCALATED (save +
log); any exception is caught and reported as `{ success: false }`,
leaving whatever in-memory mutation already happened in place. -/
def RuleEngine.processAlert (e : RuleEngine) (faults : Faults) (now : Int)
    (st : PAState) (a : Alert) : PAOut :=
  if faults.evalFails.contains a.alertId then
    ⟨st, ⟨false, false, none⟩, a⟩
  else
    let ev := e.evaluateAlert ⟨now, st.stored⟩ a
    if ev.shouldEscalate && decide (a.status = Status.OPEN) then
      let a1 := a.escalate now ev.reason
      if faults.saveFails.contains a.alertId then
        ⟨st, ⟨false, false, none⟩, a1⟩
      else
        let st1 : PAState :=
          ⟨saveAlert st.stored a1,
            st.history ++ [engineEntry a a.status Status.ESCALATED ev]⟩
        if ev.shouldAutoClose &&
            (decide (a1.status = Status.OPEN) ||
              decide (a1.status = Status.ESCALATED)) then
          let a2 := a1.autoClose now ev.reason
          ⟨⟨saveAlert st1.stored a2,
              st1.history ++ [engineEntry a a1.status Status.AUTO_CLOSED ev]⟩,
            ⟨true, true, some ev⟩, a2⟩
        else ⟨st1, ⟨true, true, some ev⟩, a1⟩
    else
      if ev.shouldAutoClose &&
          (decide (a.status = Status.OPEN) ||
            decide (a.status = Status.ESCALATED)) then
        let a2 := a.autoClose now ev.reason
        if faults.saveFails.contains a.alertId then
          ⟨st, ⟨false, false, none⟩, a2⟩
        else
          ⟨⟨saveAlert st.stored a2,
              st.history ++ [engineEntry a a.status Status.AUTO_CLOSED ev]⟩,
            ⟨true, true, some ev⟩, a2⟩
      else ⟨st, ⟨true, false, some ev⟩, a⟩

/-- The accumulator returned by processBatch. -/
structure BatchResults where
  processed : Nat
  escalated : Nat
  autoClosed : Nat
  errors : Nat
deriving DecidableEq

/-- The all-zero batch accumulator processBatch starts from. -/
def BatchResults.zero : BatchResults := ⟨0, 0, 0, 0⟩

/-- Pointwise addition of batch accumulators. -/
def BatchResults.add (x y : BatchResults) : BatchResults :=
  ⟨x.processed + y.processed, x.escalated + y.escalated,
    x.autoClosed + y.autoClosed, x.errors + y.errors⟩

/-- One iteration of processBatch's loop: on success count the alert
as processed and bump escalated/autoClosed from the alert's *final*
status when it was modified; on failure bump only the error count. -/
def batchStep (e : RuleEngine) (faults : Faults) (now : Int)
    (acc : PAState × BatchResults) (al : Alert) : PAState × BatchResults :=
  let out := e.processAlert faults now acc.1 al
  let r := acc.2
  if out.res.success then
    (out.st,
      ⟨r.processed + 1,
        r.escalated +
          (if out.res.modified && decide (out.alert.status = Status.ESCALATED)
            then 1 else 0),
        r.autoClosed +
          (if out.res.modified && decide (out.alert.status = Status.AUTO_CLOSED)
            then 1 else 0),
        r.errors⟩)
  else (out.st, ⟨r.processed, r.escalated, r.autoClosed, r.errors + 1⟩)

/-- RuleEngine.processBatch: fold the per-alert step over the batch,
starting from zero counters.  The function is total: no exception
escapes it. -/
def RuleEngine.processBatch (e : RuleEngine) (faults : Faults) (now : Int)
    (st : PAState) (alerts : List Alert) : PAState × BatchResults :=
  alerts.foldl (batchStep e faults now) (st, BatchResults.zero)

/-- Concrete data: a terminal (auto-closed) alert. -/
def wTerminalAlert : Alert :=
  { alertId := "ALT-T1", sourceType := "overspeed", severity := Severity.INFO,
    status := Status.AUTO_CLOSED, timestamp := 0, metadata := [] }

/-- Concrete data: an overspeed rule escalating at 2 alerts in 60 minutes. -/
def wEscRule : Rule :=
  { ruleId := "RULE-1", sourceType := "overspeed", enabled := true, priority := 10,
    conditions := { escalate_if_count := some 2, window_mins := some 60 } }

/-- Concrete data: engine loaded with the count-2 overspeed rule. -/
def wEngine : RuleEngine := RuleEngine.initRules [wEscRule]

/-- Concrete data: an open overspeed alert for driver D1. -/
def wAlert : Alert :=
  { alertId := "ALT-1", sourceType := "overspeed", severity := Severity.WARNING,
    status := Status.OPEN, timestamp := 300000,
    metadata := [("driverId", JsVal.str "D1")] }

/-- Concrete data: an earlier open overspeed alert for the same driver. -/
def wAlert0 : Alert :=
  { alertId := "ALT-0", sourceType := "overspeed", severity := Severity.WARNING,
    status := Status.OPEN, timestamp := 200000,
    metadata := [("driverId", JsVal.str "D1")] }

/-- Concrete data: a priority-10 overspeed rule. -/
def wRuleHi : Rule :=
  { ruleId := "RULE-HI", sourceType := "overspeed", enabled := true,
    priority := 10, conditions := {} }

/-- Concrete data: a priority-5 overspeed rule for the same source type. -/
def wRuleLo : Rule :=
  { ruleId := "RULE-LO", sourceType := "overspeed", enabled := true,
    priority := 5, conditions := {} }

/-- Concrete data: an overspeed rule escalating at 1 alert in 60 minutes. -/
def wEscRule1 : Rule :=
  { ruleId := "RULE-2", sourceType := "overspeed", enabled := true, priority := 10,
    conditions := { escalate_if_count := some 1, window_mins := some 60 } }

/-- Concrete data: engine loaded with the count-1 overspeed rule. -/
def wEngine1 : RuleEngine := RuleEngine.initRules [wEscRule1]

/-- Concrete data: an alert whose evaluation is made to throw. -/
def wBadAlert : Alert :=
  { alertId := "ALT-BAD", sourceType := "other", severity := Severity.INFO,
    status := Status.OPEN, timestamp := 0, metadata := [] }

/-- Concrete data: a benign alert with no matching rule. -/
def wG1 : Alert :=
  { alertId := "ALT-G1", sourceType := "other", severity := Severity.INFO,
    status := Status.OPEN, timestamp := 0, metadata := [] }

/-- Concrete data: a benign alert with no matching rule. -/
def wG2 : Alert :=
  { alertId := "ALT-G2", sourceType := "other", severity := Severity.INFO,
    status := Status.OPEN, timestamp := 0, metadata := [] }

/-- Concrete data: a benign alert with no matching rule. -/
def wG3 : Alert :=
  { alertId := "ALT-G3", sourceType := "other", severity := Severity.INFO,
    status := Status.OPEN, timestamp := 0, metadata := [] }

/-- Concrete data: a benign alert with no matching rule. -/
def wG4 : Alert :=
  { alertId := "ALT-G4", sourceType := "other", severity := Severity.INFO,
    status := Status.OPEN, timestamp := 0, metadata := [] }

/-- Concrete data: an overspeed rule with both an escalation-count
condition and an auto-close age threshold of 10 minutes. -/
def wBothRule : Rule :=
  { ruleId := "RULE-3", sourceType := "overspeed", enabled := true, priority := 10,
    conditions :=
      { escalate_if_count := some 1, window_mins := some 60,
        auto_close_after_mins := some 10 } }

/-- Concrete data: engine loaded with the escalate-and-age rule. -/
def wEngineBoth : RuleEngine := RuleEngine.initRules [wBothRule]

/-- Concrete data: an open overspeed alert created at time 0. -/
def wAlertAged : Alert :=
  { alertId := "ALT-A", sourceType := "overspeed", severity := Severity.WARNING,
    status := Status.OPEN, timestamp := 0,
    metadata := [("driverId", JsVal.str "D1")] }

/-- Concrete data: a compliance rule with both an auto-close predicate
and an auto-close age threshold of 10 minutes. -/
def cexRule : Rule :=
  { ruleId := "RULE-4", sourceType := "compliance", enabled := true, priority := 1,
    conditions :=
      { auto_close_if := some "documentReuploaded",
        auto_close_after_mins := some 10 } }

/-- Concrete data: engine loaded with the predicate-and-age rule. -/
def cexEngine : RuleEngine := RuleEngine.initRules [cexRule]

/-- Concrete data: a brand-new compliance alert whose metadata already
satisfies the rule's auto-close predicate. -/
def cexAlert : Alert :=
  { alertId := "ALT-C", sourceType := "compliance", severity := Severity.INFO,
    status := Status.OPEN, timestamp := 0,
    metadata := [("documentReuploaded", JsVal.bool true)] }

theorem mapSet_lookup (m : List (String × Rule)) (k : String) (v : Rule)
    (t : String) :
    (mapSet m k v).lookup t = if k = t then some v else m.lookup t := by
  induction m with
  | nil =>
      by_cases h : k = t
      · subst h; simp [mapSet, List.lookup]
      · have hb : (t == k) = false := by
          simp only [beq_eq_false_iff_ne, ne_eq]
          exact fun e => h e.symm
        simp [mapSet, List.lookup, h, hb]
  | cons p rest ih =>
      obtain ⟨k', v'⟩ := p
      by_cases h1 : k' = k
      · subst h1
        by_cases h2 : k' = t
        · subst h2
          simp [mapSet, List.lookup]
        · have hb : (t == k') = false := by
            simp only [beq_eq_false_iff_ne, ne_eq]
            exact fun e => h2 e.symm
          simp [mapSet, List.lookup, h2, hb]
      · by_cases h2 : k' = t
        · subst h2
          have h3 : ¬ k = k' := fun h => h1 h.symm
          simp [mapSet, List.lookup, h1, h3]
        · have hb : (t == k') = false := by
            simp only [beq_eq_false_iff_ne, ne_eq]
            exact fun e => h2 e.symm
          simp [mapSet, List.lookup, h1, h2, hb, ih]

theorem initRules_lookup_aux (rs : List Rule) (m : List (String × Rule))
    (t : String) :
    (rs.foldl (fun m r => mapSet m r.sourceType r) m).lookup t =
      match lastMatching rs t with
      | some r => some r
      | none => m.lookup t := by
  induction rs generalizing m with
  | nil => simp [lastMatching]
  | cons r rest ih =>
      simp only [List.foldl_cons, lastMatching]
      rw [ih]
      cases hl : lastMatching rest t with
      | some r' => simp
      | none =>
          by_cases h : r.sourceType = t <;>
            simp [mapSet_lookup, h]

theorem initRules_getRule (rs : List Rule) (t : String) :
    (RuleEngine.initRules rs).getRule t = lastMatching rs t := by
  have h := initRules_lookup_aux rs [] t
  simp only [RuleEngine.initRules, RuleEngine.getRule]
  rw [h]
  cases lastMatching rs t <;> simp [List.lookup]

theorem lastMatching_mem (rs : List Rule) (t : String) (r : Rule)
    (h : lastMatching rs t = some r) : r ∈ rs ∧ r.sourceType = t := by
  induction rs with
  | nil => simp [lastMatching] at h
  | cons r0 rest ih =>
      simp only [lastMatching] at h
      cases hl : lastMatching rest t with
      | some r' =>
          rw [hl] at h
          have hr : r' = r := by injection h
          subst hr
          exact ⟨List.mem_cons_of_mem _ (ih hl).1, (ih hl).2⟩
      | none =>
          rw [hl] at h
          by_cases hs : r0.sourceType = t
          · rw [if_pos hs] at h
            have hr : r0 = r := by injection h
            subst hr
            exact ⟨List.mem_cons_self _ _, hs⟩
          · rw [if_neg hs] at h
            cases h

theorem lastMatching_none (rs : List Rule) (t : String)
    (h : lastMatching rs t = none) : ∀ r ∈ rs, r.sourceType ≠ t := by
  induction rs with
  | nil => simp
  | cons r0 rest ih =>
      simp only [lastMatching] at h
      cases hl : lastMatching rest t with
      | some r' => rw [hl] at h; cases h
      | none =>
          rw [hl] at h
          by_cases hs : r0.sourceType = t
          · rw [if_pos hs] at h; cases h
          · intro r hr
            rcases List.mem_cons.mp hr with rfl | hr
            · exact hs
            · exact ih hl r hr

theorem lastMatching_min (rs : List Rule) (t : String) (r : Rule)
    (hsort : List.Pairwise (fun x y => y.priority ≤ x.priority) rs)
    (h : lastMatching rs t = some r) :
    ∀ r' ∈ rs, r'.sourceType = t → r.priority ≤ r'.priority := by
  induction rs with
  | nil => simp [lastMatching] at h
  | cons r0 rest ih =>
      obtain ⟨hhead, htail⟩ := List.pairwise_cons.mp hsort
      simp only [lastMatching] at h
      cases hl : lastMatching rest t with
      | some r' =>
          rw [hl] at h
          have hr : r' = r := by injection h
          subst hr
          intro r' hr' ht'
          rcases List.mem_cons.mp hr' with rfl | hr'
          · exact hhead _ (lastMatching_mem rest t _ hl).1
          · exact ih htail hl r' hr' ht'
      | none =>
          rw [hl] at h
          by_cases hs : r0.sourceType = t
          · rw [if_pos hs] at h
            have hr : r0 = r := by injection h
            subst hr
            intro r' hr' ht'
            rcases List.mem_cons.mp hr' with rfl | hr'
            · exact le_refl _
            · exact absurd ht' (lastMatching_none rest t hl r' hr')
          · rw [if_neg hs] at h
            cases h

theorem lastMatching_isSome (rs : List Rule) (t : String) (r0 : Rule)
    (hmem : r0 ∈ rs) (ht : r0.sourceType = t) :
    ∃ r, lastMatching rs t = some r := by
  cases hl : lastMatching rs t with
  | some r => exact ⟨r, rfl⟩
  | none => exact absurd ht (lastMatching_none rs t hl r0 hmem)

theorem BatchResults.add_zero (r : BatchResults) :
    r.add BatchResults.zero = r := by
  cases r; simp [BatchResults.add, BatchResults.zero]

theorem BatchResults.add_assoc (x y z : BatchResults) :
    (x.add y).add z = x.add (y.add z) := by
  cases x; cases y; cases z
  simp [BatchResults.add, Nat.add_assoc]

theorem batchStep_add (e : RuleEngine) (faults : Faults) (now : Int)
    (acc : PAState × BatchResults) (al : Alert) :
    batchStep e faults now acc al =
      ((batchStep e faults now (acc.1, BatchResults.zero) al).1,
        acc.2.add (batchStep e faults now (acc.1, BatchResults.zero) al).2) := by
  by_cases h : (e.processAlert faults now acc.1 al).res.success = true <;>
    simp [batchStep, h, BatchResults.add, BatchResults.zero]

theorem batch_foldl_add (l : List Alert) (e : RuleEngine) (faults : Faults)
    (now : Int) (acc : PAState × BatchResults) :
    l.foldl (batchStep e faults now) acc =
      ((l.foldl (batchStep e faults now) (acc.1, BatchResults.zero)).1,
        acc.2.add (l.foldl (batchStep e faults now) (acc.1, BatchResults.zero)).2) := by
  induction l generalizing acc with
  | nil => simp [BatchResults.add_zero]
  | cons a l ih =>
      simp only [List.foldl_cons]
      rw [batchStep_add e faults now acc a]
      rw [ih]
      rw [ih (batchStep e faults now (acc.1, BatchResults.zero) a)]
      simp [BatchResults.add_assoc]

theorem batchStep_processed_errors (e : RuleEngine) (faults : Faults)
    (now : Int) (acc : PAState × BatchResults) (al : Alert) :
    (batchStep e faults now acc al).2.processed +
        (batchStep e faults now acc al).2.errors =
      acc.2.processed + acc.2.errors + 1 := by
  by_cases h : (e.processAlert faults now acc.1 al).res.success = true <;>
    simp [batchStep, h] <;> omega

theorem batch_length_aux (l : List Alert) (e : RuleEngine) (faults : Faults)
    (now : Int) (acc : PAState × BatchResults) :
    (l.foldl (batchStep e faults now) acc).2.processed +
        (l.foldl (batchStep e faults now) acc).2.errors =
      acc.2.processed + acc.2.errors + l.length := by
  induction l generalizing acc with
  | nil => simp
  | cons a l ih =>
      simp only [List.foldl_cons, List.length_cons]
      rw [ih]
      rw [batchStep_processed_errors]
      omega

theorem processAlert_both_fire (e : RuleEngine) (faults : Faults) (now : Int)
    (st : PAState) (a : Alert)
    (hOpen : a.status = Status.OPEN)
    (hfe : faults.evalFails.contains a.alertId = false)
    (hfs : faults.saveFails.contains a.alertId = false)
    (hesc : (e.evaluateAlert ⟨now, st.stored⟩ a).shouldEscalate = true)
    (hac : (e.evaluateAlert ⟨now, st.stored⟩ a).shouldAutoClose = true) :
    e.processAlert faults now st a =
      ⟨⟨saveAlert
            (saveAlert st.stored
              (a.escalate now (e.evaluateAlert ⟨now, st.stored⟩ a).reason))
            ((a.escalate now (e.evaluateAlert ⟨now, st.stored⟩ a).reason).autoClose
              now (e.evaluateAlert ⟨now, st.stored⟩ a).reason),
          st.history ++
            [engineEntry a Status.OPEN Status.ESCALATED
                (e.evaluateAlert ⟨now, st.stored⟩ a),
              engineEntry a Status.ESCALATED Status.AUTO_CLOSED
                (e.evaluateAlert ⟨now, st.stored⟩ a)]⟩,
        ⟨true, true, some (e.evaluateAlert ⟨now, st.stored⟩ a)⟩,
        (a.escalate now (e.evaluateAlert ⟨now, st.stored⟩ a).reason).autoClose
          now (e.evaluateAlert ⟨now, st.stored⟩ a).reason⟩ := by
  have hstat1 : (a.escalate now (e.evaluateAlert ⟨now, st.stored⟩ a).reason).status =
      Status.ESCALATED := by
    simp [Alert.escalate, hOpen]
  have hfe' : a.alertId ∉ faults.evalFails := by simpa using hfe
  have hfs' : a.alertId ∉ faults.saveFails := by simpa using hfs
  simp [RuleEngine.processAlert, hfe', hfs', hesc, hac, hOpen, hstat1]

theorem countSimilar_eq_spec (stored : List Alert) (a : Alert) (now w : Int)
    (hts : ∀ b ∈ stored, b.timestamp ≤ now) :
    countSimilar stored a (now - w * 60 * 1000) =
      specCountInWindow stored a now w := by
  unfold countSimilar specCountInWindow
  congr 1
  apply List.filter_congr
  intro b hb
  have h := hts b hb
  simp only [decide_eq_decide]
  constructor
  · rintro ⟨h1, h2, h3, h4⟩
    exact ⟨h1, h2, h3, h, h4⟩
  · rintro ⟨h1, h2, h3, _, h4⟩
    exact ⟨h1, h2, h3, h4⟩

theorem evaluateAlert_shouldEscalate (e : RuleEngine) (env : Env) (a : Alert)
    (r : Rule) (hr : e.getRule a.sourceType = some r) (hen : r.enabled = true) :
    (e.evaluateAlert env a).shouldEscalate =
      (numTruthy r.conditions.escalate_if_count &&
        numTruthy r.conditions.window_mins &&
        decide ((countSimilar env.stored a
            (env.now - r.conditions.window_mins.getD 0 * 60 * 1000) : Int) ≥
          r.conditions.escalate_if_count.getD 0)) := by
  simp [RuleEngine.evaluateAlert, hr, hen]

theorem evaluateAlert_shouldAutoClose (e : RuleEngine) (env : Env) (a : Alert)
    (r : Rule) (hr : e.getRule a.sourceType = some r) (hen : r.enabled = true) :
    (e.evaluateAlert env a).shouldAutoClose =
      ((strTruthy r.conditions.auto_close_if &&
          evaluateCloseCondition (r.conditions.auto_close_if.getD "")
            a.metadata env.now) ||
        (numTruthy r.conditions.auto_close_after_mins &&
          decide (env.now - a.timestamp ≥
            r.conditions.auto_close_after_mins.getD 0 * 60 * 1000))) := by
  simp [RuleEngine.evaluateAlert, hr, hen]

theorem evaluateAlert_reason_age (e : RuleEngine) (env : Env) (a : Alert)
    (r : Rule) (hr : e.getRule a.sourceType = some r) (hen : r.enabled = true)
    (hm : numTruthy r.conditions.auto_close_after_mins = true)
    (hage : env.now - a.timestamp ≥
      r.conditions.auto_close_after_mins.getD 0 * 60 * 1000) :
    (e.evaluateAlert env a).reason =
      ageReason (r.conditions.auto_close_after_mins.getD 0) := by
  simp [RuleEngine.evaluateAlert, hr, hen, hm, hage]

/-- Claim C1: for every alert in a terminal status (AUTO_CLOSED or
RESOLVED), processAlert returns the alert unchanged and leaves the
store and history untouched, and the underlying escalate/autoClose
state-machine methods are no-ops; the escalate branch fires only from
OPEN and the auto-close branch only from OPEN or ESCALATED.
(evaluateAlert is a pure decision function in this embedding and never
mutates the alert.) -/
theorem claim_c1_terminal_noop (e : RuleEngine) (faults : Faults) (now : Int)
    (st : PAState) (a : Alert) (reason : String)
    (h : a.status = Status.AUTO_CLOSED ∨ a.status = Status.RESOLVED) :
    (e.processAlert faults now st a).alert = a ∧
    (e.processAlert faults now st a).st = st ∧
    a.escalate now reason = a ∧
    a.autoClose now reason = a := by
  have hesc : a.escalate now reason = a := by
    rcases h with h | h <;> simp [Alert.escalate, h]
  have hac : a.autoClose now reason = a := by
    rcases h with h | h <;> simp [Alert.autoClose, h]
  refine ⟨?_, ?_, hesc, hac⟩ <;>
  · by_cases hf : a.alertId ∈ faults.evalFails
    · simp [RuleEngine.processAlert, hf]
    · rcases h with h | h <;> simp [RuleEngine.processAlert, hf, h]

/-- Witness for C1: a concrete AUTO_CLOSED alert is returned unchanged
by processAlert, and escalate/autoClose leave it unchanged. -/
theorem claim_c1_terminal_noop_witness :
    (wTerminalAlert.status = Status.AUTO_CLOSED ∨
      wTerminalAlert.status = Status.RESOLVED) ∧
    ((wEngine.processAlert ⟨[], []⟩ 600000 ⟨[], []⟩ wTerminalAlert).alert =
        wTerminalAlert ∧
      (wEngine.processAlert ⟨[], []⟩ 600000 ⟨[], []⟩ wTerminalAlert).st =
        ⟨[], []⟩ ∧
      wTerminalAlert.escalate 600000 "r" = wTerminalAlert ∧
      wTerminalAlert.autoClose 600000 "r" = wTerminalAlert) :=
  ⟨Or.inl (by decide),
    claim_c1_terminal_noop wEngine ⟨[], []⟩ 600000 ⟨[], []⟩ wTerminalAlert "r"
      (Or.inl (by decide))⟩

/-- Claim C9: the resolve state-machine method is applied
unconditionally: for every alert, in any status whatsoever, resolve
sets status RESOLVED, stamps resolvedAt with the clock, and records the
resolving actor and notes, with no guard check (in contrast to
escalate and autoClose). -/
theorem claim_c9_resolve_unconditional (a : Alert) (now : Int)
    (userId notes : Option String) :
    (a.resolve now userId notes).status = Status.RESOLVED ∧
    (a.resolve now userId notes).resolvedAt = some now ∧
    (a.resolve now userId notes).resolvedBy = userId ∧
    (a.resolve now userId notes).notes = notes := by
  simp [Alert.resolve]

/-- Claim C3: for every enabled rule list ordered by priority
descending, initialize inserts each rule in order with later
insertions overwriting earlier ones (the retained binding is the last
same-type rule in the list), so the rule retained for a contested
source type is one of lowest priority among the same-type rules. -/
theorem claim_c3_lowest_priority_retained (rs : List Rule) (t : String)
    (r0 : Rule)
    (hsort : List.Pairwise (fun x y => y.priority ≤ x.priority) rs)
    (hen : ∀ r ∈ rs, r.enabled = true)
    (hmem : r0 ∈ rs) (ht : r0.sourceType = t) :
    (RuleEngine.initRules rs).getRule t = lastMatching rs t ∧
    ∃ r, (RuleEngine.initRules rs).getRule t = some r ∧ r ∈ rs ∧
      r.sourceType = t ∧
      ∀ r' ∈ rs, r'.sourceType = t → r.priority ≤ r'.priority := by
  refine ⟨initRules_getRule rs t, ?_⟩
  obtain ⟨r, hl⟩ := lastMatching_isSome rs t r0 hmem ht
  exact ⟨r, by rw [initRules_getRule, hl], (lastMatching_mem rs t r hl).1,
    (lastMatching_mem rs t r hl).2, lastMatching_min rs t r hsort hl⟩

/-- Witness for C3: with two enabled overspeed rules of priorities 10
and 5, sorted descending, the retained rule is the priority-5 one. -/
theorem claim_c3_lowest_priority_retained_witness :
    (List.Pairwise (fun x y => y.priority ≤ x.priority) [wRuleHi, wRuleLo] ∧
      wRuleHi ∈ [wRuleHi, wRuleLo] ∧ wRuleHi.sourceType = "overspeed") ∧
    ((RuleEngine.initRules [wRuleHi, wRuleLo]).getRule "overspeed" =
        lastMatching [wRuleHi, wRuleLo] "overspeed" ∧
      ∃ r, (RuleEngine.initRules [wRuleHi, wRuleLo]).getRule "overspeed" =
          some r ∧ r ∈ [wRuleHi, wRuleLo] ∧ r.sourceType = "overspeed" ∧
        ∀ r' ∈ [wRuleHi, wRuleLo], r'.sourceType = "overspeed" →
          r.priority ≤ r'.priority) ∧
    (RuleEngine.initRules [wRuleHi, wRuleLo]).getRule "overspeed" =
      some wRuleLo :=
  ⟨⟨by decide, by decide, by decide⟩,
    claim_c3_lowest_priority_retained [wRuleHi, wRuleLo] "overspeed" wRuleHi
      (by decide) (by decide) (by decide) (by decide),
    by decide⟩

/-- Claim C2: for an alert whose matched, enabled rule has truthy
escalate_if_count and window_mins, and for any store whose timestamps
do not exceed the clock (the invariant the system maintains, since
alert timestamps are assigned at creation), evaluateAlert sets
shouldEscalate exactly when the count of stored OPEN/ESCALATED alerts
of the same source type and driver with timestamp in
[now − window, now] reaches the threshold. -/
theorem claim_c2_escalation_count (e : RuleEngine) (env : Env) (a : Alert)
    (r : Rule) (hr : e.getRule a.sourceType = some r)
    (hen : r.enabled = true)
    (hc1 : numTruthy r.conditions.escalate_if_count = true)
    (hc2 : numTruthy r.conditions.window_mins = true)
    (hts : ∀ b ∈ env.stored, b.timestamp ≤ env.now) :
    (e.evaluateAlert env a).shouldEscalate = true ↔
      (specCountInWindow env.stored a env.now
          (r.conditions.window_mins.getD 0) : Int) ≥
        r.conditions.escalate_if_count.getD 0 := by
  rw [evaluateAlert_shouldEscalate e env a r hr hen, hc1, hc2]
  rw [countSimilar_eq_spec env.stored a env.now _ hts]
  simp

/-- Witness for C2: driver D1 has 2 open overspeed alerts in the last
60 minutes against a threshold of 2, so escalation fires; with only 1
such alert (threshold − 1) it does not. -/
theorem claim_c2_escalation_count_witness :
    (wEngine.getRule wAlert.sourceType = some wEscRule ∧
      wEscRule.enabled = true ∧
      numTruthy wEscRule.conditions.escalate_if_count = true ∧
      numTruthy wEscRule.conditions.window_mins = true ∧
      ∀ b ∈ [wAlert0, wAlert], b.timestamp ≤ (600000 : Int)) ∧
    ((wEngine.evaluateAlert ⟨600000, [wAlert0, wAlert]⟩ wAlert).shouldEscalate =
        true ↔
      (specCountInWindow [wAlert0, wAlert] wAlert 600000
          (wEscRule.conditions.window_mins.getD 0) : Int) ≥
        wEscRule.conditions.escalate_if_count.getD 0) ∧
    (wEngine.evaluateAlert ⟨600000, [wAlert0, wAlert]⟩ wAlert).shouldEscalate =
      true ∧
    (wEngine.evaluateAlert ⟨600000, [wAlert]⟩ wAlert).shouldEscalate = false :=
  ⟨⟨by decide, by decide, by decide, by decide, by decide⟩,
    claim_c2_escalation_count wEngine ⟨600000, [wAlert0, wAlert]⟩ wAlert
      wEscRule (by decide) (by decide) (by decide) (by decide) (by decide),
    by decide, by decide⟩

/-- Claim C5: alerts are processed independently: when processing of
the head alert fails (its exception is caught and reported as
success = false), the batch result equals the result of processing the
remaining alerts from the post-failure state, with only the error
counter incremented by one; processBatch is a total function and
always returns the accumulated counters. -/
theorem claim_c5_batch_isolation (e : RuleEngine) (faults : Faults)
    (now : Int) (st : PAState) (al : Alert) (rest : List Alert)
    (h : (e.processAlert faults now st al).res.success = false) :
    (e.processBatch faults now st (al :: rest)).1 =
      (e.processBatch faults now (e.processAlert faults now st al).st rest).1 ∧
    (e.processBatch faults now st (al :: rest)).2.processed =
      (e.processBatch faults now (e.processAlert faults now st al).st
          rest).2.processed ∧
    (e.processBatch faults now st (al :: rest)).2.escalated =
      (e.processBatch faults now (e.processAlert faults now st al).st
          rest).2.escalated ∧
    (e.processBatch faults now st (al :: rest)).2.autoClosed =
      (e.processBatch faults now (e.processAlert faults now st al).st
          rest).2.autoClosed ∧
    (e.processBatch faults now st (al :: rest)).2.errors =
      (e.processBatch faults now (e.processAlert faults now st al).st
          rest).2.errors + 1 := by
  have hsucc : (e.processAlert faults now st al).res.success ≠ true := by
    simp [h]
  have hstep : batchStep e faults now (st, BatchResults.zero) al =
      ((e.processAlert faults now st al).st, ⟨0, 0, 0, 1⟩) := by
    simp [batchStep, hsucc, BatchResults.zero]
  unfold RuleEngine.processBatch
  simp only [List.foldl_cons]
  rw [hstep]
  rw [batch_foldl_add rest e faults now
    ((e.processAlert faults now st al).st, ⟨0, 0, 0, 1⟩)]
  refine ⟨rfl, ?_, ?_, ?_, ?_⟩ <;> simp [BatchResults.add] <;> omega

/-- Witness for C5: a batch of 5 alerts in which exactly the first
one's evaluation throws yields processed = 4 and errors = 1, and the
tail is processed as if the failure had not happened. -/
theorem claim_c5_batch_isolation_witness :
    ((RuleEngine.initRules []).processAlert ⟨["ALT-BAD"], []⟩ 0 ⟨[], []⟩
        wBadAlert).res.success = false ∧
    (((RuleEngine.initRules []).processBatch ⟨["ALT-BAD"], []⟩ 0 ⟨[], []⟩
          [wBadAlert, wG1, wG2, wG3, wG4]).2.errors =
        ((RuleEngine.initRules []).processBatch ⟨["ALT-BAD"], []⟩ 0
            ((RuleEngine.initRules []).processAlert ⟨["ALT-BAD"], []⟩ 0
              ⟨[], []⟩ wBadAlert).st [wG1, wG2, wG3, wG4]).2.errors + 1) ∧
    ((RuleEngine.initRules []).processBatch ⟨["ALT-BAD"], []⟩ 0 ⟨[], []⟩
        [wBadAlert, wG1, wG2, wG3, wG4]).2.processed = 4 ∧
    ((RuleEngine.initRules []).processBatch ⟨["ALT-BAD"], []⟩ 0 ⟨[], []⟩
        [wBadAlert, wG1, wG2, wG3, wG4]).2.errors = 1 :=
  ⟨by decide,
    (claim_c5_batch_isolation (RuleEngine.initRules []) ⟨["ALT-BAD"], []⟩ 0
        ⟨[], []⟩ wBadAlert [wG1, wG2, wG3, wG4] (by decide)).2.2.2.2,
    by decide, by decide⟩

/-- Claim C6: the escalation and auto-close decisions are independent
booleans: when the matched rule's age condition holds for an alert
whose escalation check also fired, the evaluation returns both flags
true and the auto-close reason has overwritten the escalation reason;
processAlert on such an OPEN alert escalates and then auto-closes in
the same call, appending an OPEN→ESCALATED entry and then an
ESCALATED→AUTO_CLOSED entry to the history. -/
theorem claim_c6_independent_flags (e : RuleEngine) (faults : Faults)
    (now : Int) (st : PAState) (a : Alert) (r : Rule)
    (hr : e.getRule a.sourceType = some r) (hen : r.enabled = true)
    (hOpen : a.status = Status.OPEN)
    (hfe : faults.evalFails.contains a.alertId = false)
    (hfs : faults.saveFails.contains a.alertId = false)
    (hesc : (e.evaluateAlert ⟨now, st.stored⟩ a).shouldEscalate = true)
    (hm : numTruthy r.conditions.auto_close_after_mins = true)
    (hage : now - a.timestamp ≥
      r.conditions.auto_close_after_mins.getD 0 * 60 * 1000) :
    (e.evaluateAlert ⟨now, st.stored⟩ a).shouldAutoClose = true ∧
    (e.evaluateAlert ⟨now, st.stored⟩ a).reason =
      ageReason (r.conditions.auto_close_after_mins.getD 0) ∧
    (e.processAlert faults now st a).alert.status = Status.AUTO_CLOSED ∧
    (e.processAlert faults now st a).st.history =
      st.history ++
        [engineEntry a Status.OPEN Status.ESCALATED
            (e.evaluateAlert ⟨now, st.stored⟩ a),
          engineEntry a Status.ESCALATED Status.AUTO_CLOSED
            (e.evaluateAlert ⟨now, st.stored⟩ a)] := by
  have hac : (e.evaluateAlert ⟨now, st.stored⟩ a).shouldAutoClose = true := by
    rw [evaluateAlert_shouldAutoClose e ⟨now, st.stored⟩ a r hr hen]
    simp [hm, hage]
  have hreason := evaluateAlert_reason_age e ⟨now, st.stored⟩ a r hr hen hm hage
  have hout := processAlert_both_fire e faults now st a hOpen hfe hfs hesc hac
  rw [hout]
  refine ⟨hac, hreason, ?_, rfl⟩
  have h1 : (a.escalate now
      (e.evaluateAlert ⟨now, st.stored⟩ a).reason).status = Status.ESCALATED := by
    simp [Alert.escalate, hOpen]
  simp [Alert.autoClose, h1]

/-- Witness for C6: a 10-minute-old overspeed alert against a rule with
escalate_if_count 1 / window 60 and auto_close_after_mins 10: both
flags are true, the reason is the age reason, and processAlert yields
AUTO_CLOSED with the two history entries. -/
theorem claim_c6_independent_flags_witness :
    (wEngineBoth.getRule wAlertAged.sourceType = some wBothRule ∧
      wAlertAged.status = Status.OPEN ∧
      (wEngineBoth.evaluateAlert ⟨600000, [wAlertAged]⟩
          wAlertAged).shouldEscalate = true ∧
      numTruthy wBothRule.conditions.auto_close_after_mins = true ∧
      (600000 : Int) - wAlertAged.timestamp ≥
        wBothRule.conditions.auto_close_after_mins.getD 0 * 60 * 1000) ∧
    ((wEngineBoth.evaluateAlert ⟨600000, [wAlertAged]⟩
        wAlertAged).shouldAutoClose = true ∧
      (wEngineBoth.evaluateAlert ⟨600000, [wAlertAged]⟩ wAlertAged).reason =
        ageReason (wBothRule.conditions.auto_close_after_mins.getD 0) ∧
      (wEngineBoth.processAlert ⟨[], []⟩ 600000 ⟨[wAlertAged], []⟩
          wAlertAged).alert.status = Status.AUTO_CLOSED ∧
      (wEngineBoth.processAlert ⟨[], []⟩ 600000 ⟨[wAlertAged], []⟩
          wAlertAged).st.history =
        [engineEntry wAlertAged Status.OPEN Status.ESCALATED
            (wEngineBoth.evaluateAlert ⟨600000, [wAlertAged]⟩ wAlertAged),
          engineEntry wAlertAged Status.ESCALATED Status.AUTO_CLOSED
            (wEngineBoth.evaluateAlert ⟨600000, [wAlertAged]⟩ wAlertAged)]) :=
  ⟨⟨by decide, by decide, by decide, by decide, by decide⟩,
    claim_c6_independent_flags wEngineBoth ⟨[], []⟩ 600000 ⟨[wAlertAged], []⟩
      wAlertAged wBothRule (by decide) (by decide) (by decide) (by decide)
      (by decide) (by decide) (by decide) (by decide)⟩

/-- Claim C10: processBatch counts escalations and auto-closures from
the alert's final status: an alert that escalates and then auto-closes
inside one processAlert call (final status AUTO_CLOSED) bumps only the
autoClosed counter, even though an OPEN→ESCALATED transition was logged
to history; and for every batch, processed + errors equals the number
of alerts in the batch. -/
theorem claim_c10_final_status_counters (e : RuleEngine) (faults : Faults)
    (now : Int) (st : PAState) (a : Alert)
    (hOpen : a.status = Status.OPEN)
    (hfe : faults.evalFails.contains a.alertId = false)
    (hfs : faults.saveFails.contains a.alertId = false)
    (hesc : (e.evaluateAlert ⟨now, st.stored⟩ a).shouldEscalate = true)
    (hac : (e.evaluateAlert ⟨now, st.stored⟩ a).shouldAutoClose = true) :
    (e.processBatch faults now st [a]).2 = ⟨1, 0, 1, 0⟩ ∧
    (e.processAlert faults now st a).st.history =
      st.history ++
        [engineEntry a Status.OPEN Status.ESCALATED
            (e.evaluateAlert ⟨now, st.stored⟩ a),
          engineEntry a Status.ESCALATED Status.AUTO_CLOSED
            (e.evaluateAlert ⟨now, st.stored⟩ a)] ∧
    ∀ (alerts : List Alert) (st' : PAState),
      (e.processBatch faults now st' alerts).2.processed +
        (e.processBatch faults now st' alerts).2.errors = alerts.length := by
  have hout := processAlert_both_fire e faults now st a hOpen hfe hfs hesc hac
  have h1 : (a.escalate now
      (e.evaluateAlert ⟨now, st.stored⟩ a).reason).status = Status.ESCALATED := by
    simp [Alert.escalate, hOpen]
  have h2 : ((a.escalate now
        (e.evaluateAlert ⟨now, st.stored⟩ a).reason).autoClose now
      (e.evaluateAlert ⟨now, st.stored⟩ a).reason).status =
      Status.AUTO_CLOSED := by
    simp [Alert.autoClose, h1]
  refine ⟨?_, ?_, ?_⟩
  · unfold RuleEngine.processBatch
    simp only [List.foldl_cons, List.foldl_nil]
    rw [show batchStep e faults now (st, BatchResults.zero) a =
        ((e.processAlert faults now st a).st,
          ⟨1, 0, 1, 0⟩) from by simp [batchStep, hout, h2, BatchResults.zero]]
  · rw [hout]
  · intro alerts st'
    have h := batch_length_aux alerts e faults now (st', BatchResults.zero)
    simpa [RuleEngine.processBatch, BatchResults.zero] using h

/-- Witness for C10: the escalate-then-auto-close alert contributes
(processed 1, escalated 0, autoClosed 1, errors 0) to its batch, and a
3-alert batch reports processed + errors = 3. -/
theorem claim_c10_final_status_counters_witness :
    (wAlertAged.status = Status.OPEN ∧
      (wEngineBoth.evaluateAlert ⟨600000, [wAlertAged]⟩
          wAlertAged).shouldEscalate = true ∧
      (wEngineBoth.evaluateAlert ⟨600000, [wAlertAged]⟩
          wAlertAged).shouldAutoClose = true) ∧
    (wEngineBoth.processBatch ⟨[], []⟩ 600000 ⟨[wAlertAged], []⟩
        [wAlertAged]).2 = ⟨1, 0, 1, 0⟩ ∧
    ((wEngineBoth.processBatch ⟨[], []⟩ 600000 ⟨[], []⟩
          [wG1, wG2, wG3]).2.processed +
        (wEngineBoth.processBatch ⟨[], []⟩ 600000 ⟨[], []⟩
          [wG1, wG2, wG3]).2.errors = 3) :=
  ⟨⟨by decide, by decide, by decide⟩,
    (claim_c10_final_status_counters wEngineBoth ⟨[], []⟩ 600000
        ⟨[wAlertAged], []⟩ wAlertAged (by decide) (by decide) (by decide)
        (by decide) (by decide)).1,
    (claim_c10_final_status_counters wEngineBoth ⟨[], []⟩ 600000
        ⟨[wAlertAged], []⟩ wAlertAged (by decide) (by decide) (by decide)
        (by decide) (by decide)).2.2 [wG1, wG2, wG3] ⟨[], []⟩⟩

/-- Counterexample for C7 as stated: a brand-new alert (age 0, below
the 10-minute age threshold) whose matched rule also carries an
auto_close_if predicate that its metadata satisfies still gets
shouldAutoClose = true, refuting the claimed "if and only if the age
meets the threshold". -/
theorem claim_c7_age_counterexample :
    (cexEngine.evaluateAlert ⟨0, []⟩ cexAlert).shouldAutoClose = true ∧
    ¬ ((0 : Int) - cexAlert.timestamp ≥
        cexRule.conditions.auto_close_after_mins.getD 0 * 60 * 1000) := by
  decide

/-- Claim C7 (amended): for an alert whose matched, enabled rule has a
truthy auto_close_after_mins, evaluateAlert sets shouldAutoClose to
true iff the alert's age meets the age threshold OR the rule's
auto_close_if predicate (when present) is satisfied by the alert's
metadata; in particular, when no auto_close_if condition fires, the
age check alone decides. -/
theorem claim_c7_age_autoclose_amended (e : RuleEngine) (env : Env)
    (a : Alert) (r : Rule) (hr : e.getRule a.sourceType = some r)
    (hen : r.enabled = true)
    (hm : numTruthy r.conditions.auto_close_after_mins = true) :
    (e.evaluateAlert env a).shouldAutoClose = true ↔
      ((strTruthy r.conditions.auto_close_if = true ∧
          evaluateCloseCondition (r.conditions.auto_close_if.getD "")
            a.metadata env.now = true) ∨
        env.now - a.timestamp ≥
          r.conditions.auto_close_after_mins.getD 0 * 60 * 1000) := by
  rw [evaluateAlert_shouldAutoClose e env a r hr hen]
  simp [hm]

/-- Witness for C7 (amended): on the concrete predicate-and-age rule,
the biconditional holds at the concrete alert (the predicate side is
what fires). -/
theorem claim_c7_age_autoclose_amended_witness :
    (cexEngine.getRule cexAlert.sourceType = some cexRule ∧
      cexRule.enabled = true ∧
      numTruthy cexRule.conditions.auto_close_after_mins = true) ∧
    ((cexEngine.evaluateAlert ⟨0, []⟩ cexAlert).shouldAutoClose = true ↔
      ((strTruthy cexRule.conditions.auto_close_if = true ∧
          evaluateCloseCondition (cexRule.conditions.auto_close_if.getD "")
            cexAlert.metadata 0 = true) ∨
        (0 : Int) - cexAlert.timestamp ≥
          cexRule.conditions.auto_close_after_mins.getD 0 * 60 * 1000)) :=
  ⟨⟨by decide, by decide, by decide⟩,
    claim_c7_age_autoclose_amended cexEngine ⟨0, []⟩ cexAlert cexRule
      (by decide) (by decide) (by decide)⟩

/-- Claim C8: the close-predicate catalogue: document_valid is true iff
the documentValid flag is boolean true or a (Date-typed) expiryDate is
present and strictly in the future; speed_normalized iff speed ≤
speedLimit (both present as numbers); feedback_improved iff
feedbackRating ≥ 3; and any other name is true iff the metadata map
has a field of that exact name whose value is boolean true, so an
unknown name absent from metadata evaluates to false rather than
raising an error. -/
theorem claim_c8_close_predicates (m : List (String × JsVal)) (now : Int) :
    (evaluateCloseCondition "document_valid" m now = true ↔
      (m.lookup "documentValid" = some (JsVal.bool true) ∨
        ∃ t, m.lookup "expiryDate" = some (JsVal.date t) ∧ now < t)) ∧
    (evaluateCloseCondition "speed_normalized" m now = true ↔
      ∃ s l, m.lookup "speed" = some (JsVal.num s) ∧
        m.lookup "speedLimit" = some (JsVal.num l) ∧ s ≤ l) ∧
    (evaluateCloseCondition "feedback_improved" m now = true ↔
      ∃ fr, m.lookup "feedbackRating" = some (JsVal.num fr) ∧ 3 ≤ fr) ∧
    ∀ c, c ≠ "document_valid" → c ≠ "speed_normalized" →
      c ≠ "feedback_improved" →
      (evaluateCloseCondition c m now = true ↔
        m.lookup c = some (JsVal.bool true)) := by
  refine ⟨?_, ?_, ?_, ?_⟩
  · unfold evaluateCloseCondition
    rw [if_pos rfl]
    cases hld : m.lookup "expiryDate" with
    | none => simp [hld]
    | some v => cases v <;> simp [hld, jsTruthy, toTime]
  · unfold evaluateCloseCondition
    rw [if_neg (by decide), if_pos rfl]
    cases hls : m.lookup "speed" with
    | none => simp [hls]
    | some v =>
        cases hll : m.lookup "speedLimit" with
        | none => cases v <;> simp [hls, hll, toNum]
        | some w => cases v <;> cases w <;> simp [hls, hll, toNum]
  · unfold evaluateCloseCondition
    rw [if_neg (by decide), if_neg (by decide), if_pos rfl]
    cases hlf : m.lookup "feedbackRating" with
    | none => simp [hlf]
    | some v => cases v <;> simp [hlf, toNum]
  · intro c h1 h2 h3
    unfold evaluateCloseCondition
    rw [if_neg h1, if_neg h2, if_neg h3]
    simp

/-- Witness for C8: an unknown predicate name absent from an empty
metadata map evaluates to false, via the fallback biconditional. -/
theorem claim_c8_close_predicates_witness :
    ("missing_flag" ≠ "document_valid" ∧ "missing_flag" ≠ "speed_normalized" ∧
      "missing_flag" ≠ "feedback_improved") ∧
    (evaluateCloseCondition "missing_flag" ([] : List (String × JsVal)) 0 =
        true ↔
      ([] : List (String × JsVal)).lookup "missing_flag" =
        some (JsVal.bool true)) ∧
    evaluateCloseCondition "missing_flag" ([] : List (String × JsVal)) 0 =
      false :=
  ⟨⟨by decide, by decide, by decide⟩,
    (claim_c8_close_predicates [] 0).2.2.2 "missing_flag" (by decide)
      (by decide) (by decide),
    by decide⟩

/-- Claim C4: a second processAlert call on an alert the first call
moved OPEN→ESCALATED performs no further escalation: assuming the
second evaluation does not trigger auto-close, the second call leaves
the alert (status, severity, escalatedAt, notes) and the state
(including history) unchanged, and across both calls exactly one
history entry — the OPEN→ESCALATED one — was appended. -/
theorem claim_c4_second_call_noop (e : RuleEngine) (faults faults2 : Faults)
    (now1 now2 : Int) (st : PAState) (a : Alert)
    (hOpen : a.status = Status.OPEN)
    (hfe : faults.evalFails.contains a.alertId = false)
    (hfs : faults.saveFails.contains a.alertId = false)
    (hEsc : (e.processAlert faults now1 st a).alert.status = Status.ESCALATED)
    (hNoAC : (e.evaluateAlert
        ⟨now2, (e.processAlert faults now1 st a).st.stored⟩
        (e.processAlert faults now1 st a).alert).shouldAutoClose = false) :
    (e.processAlert faults2 now2 (e.processAlert faults now1 st a).st
        (e.processAlert faults now1 st a).alert).alert =
      (e.processAlert faults now1 st a).alert ∧
    (e.processAlert faults2 now2 (e.processAlert faults now1 st a).st
        (e.processAlert faults now1 st a).alert).st =
      (e.processAlert faults now1 st a).st ∧
    (e.processAlert faults now1 st a).st.history =
      st.history ++ [engineEntry a Status.OPEN Status.ESCALATED
        (e.evaluateAlert ⟨now1, st.stored⟩ a)] := by
  have hfe' : a.alertId ∉ faults.evalFails := by simpa using hfe
  have hfs' : a.alertId ∉ faults.saveFails := by simpa using hfs
  have hstat1 : (a.escalate now1
      (e.evaluateAlert ⟨now1, st.stored⟩ a).reason).status =
      Status.ESCALATED := by
    simp [Alert.escalate, hOpen]
  by_cases h1 : (e.evaluateAlert ⟨now1, st.stored⟩ a).shouldEscalate = true
  · by_cases h2 : (e.evaluateAlert ⟨now1, st.stored⟩ a).shouldAutoClose = true
    · exfalso
      have hout := processAlert_both_fire e faults now1 st a hOpen hfe hfs h1 h2
      rw [hout] at hEsc
      simp only [Alert.autoClose, hstat1] at hEsc
      simp at hEsc
    · have h2' : (e.evaluateAlert ⟨now1, st.stored⟩ a).shouldAutoClose =
          false := by
        simpa using h2
      have hout : e.processAlert faults now1 st a =
          ⟨⟨saveAlert st.stored
              (a.escalate now1 (e.evaluateAlert ⟨now1, st.stored⟩ a).reason),
            st.history ++ [engineEntry a Status.OPEN Status.ESCALATED
              (e.evaluateAlert ⟨now1, st.stored⟩ a)]⟩,
            ⟨true, true, some (e.evaluateAlert ⟨now1, st.stored⟩ a)⟩,
            a.escalate now1 (e.evaluateAlert ⟨now1, st.stored⟩ a).reason⟩ := by
        simp [RuleEngine.processAlert, hfe', hfs', h1, h2', hOpen, hstat1]
      rw [hout] at hNoAC ⊢
      simp only at hNoAC ⊢
      refine ⟨?_, ?_, by trivial⟩ <;>
      · by_cases hf2 : (a.escalate now1
            (e.evaluateAlert ⟨now1, st.stored⟩ a).reason).alertId ∈
            faults2.evalFails
        · simp [RuleEngine.processAlert, hf2]
        · simp [RuleEngine.processAlert, hf2, hstat1, hNoAC]
  · exfalso
    have h1' : (e.evaluateAlert ⟨now1, st.stored⟩ a).shouldEscalate =
        false := by
      simpa using h1
    by_cases h2 : (e.evaluateAlert ⟨now1, st.stored⟩ a).shouldAutoClose = true
    · have hout : e.processAlert faults now1 st a =
          ⟨⟨saveAlert st.stored
              (a.autoClose now1 (e.evaluateAlert ⟨now1, st.stored⟩ a).reason),
            st.history ++ [engineEntry a Status.OPEN Status.AUTO_CLOSED
              (e.evaluateAlert ⟨now1, st.stored⟩ a)]⟩,
            ⟨true, true, some (e.evaluateAlert ⟨now1, st.stored⟩ a)⟩,
            a.autoClose now1 (e.evaluateAlert ⟨now1, st.stored⟩ a).reason⟩ := by
        simp [RuleEngine.processAlert, hfe', hfs', h1', h2, hOpen]
      rw [hout] at hEsc
      simp only [Alert.autoClose, hOpen] at hEsc
      simp at hEsc
    · have h2' : (e.evaluateAlert ⟨now1, st.stored⟩ a).shouldAutoClose =
          false := by
        simpa using h2
      have hout : e.processAlert faults now1 st a =
          ⟨st, ⟨true, false, some (e.evaluateAlert ⟨now1, st.stored⟩ a)⟩, a⟩ := by
        simp [RuleEngine.processAlert, hfe', h1', h2', hOpen]
      rw [hout] at hEsc
      rw [hOpen] at hEsc
      cases hEsc

/-- Witness for C4: a first processAlert call escalates the concrete
open overspeed alert (count-1 rule); the second call at a later clock
leaves alert and state unchanged, and only the single OPEN→ESCALATED
history entry exists. -/
theorem claim_c4_second_call_noop_witness :
    (wAlert.status = Status.OPEN ∧
      (wEngine1.processAlert ⟨[], []⟩ 600000 ⟨[wAlert], []⟩
          wAlert).alert.status = Status.ESCALATED ∧
      (wEngine1.evaluateAlert
          ⟨700000, (wEngine1.processAlert ⟨[], []⟩ 600000 ⟨[wAlert], []⟩
            wAlert).st.stored⟩
          (wEngine1.processAlert ⟨[], []⟩ 600000 ⟨[wAlert], []⟩
            wAlert).alert).shouldAutoClose = false) ∧
    ((wEngine1.processAlert ⟨[], []⟩ 700000
          (wEngine1.processAlert ⟨[], []⟩ 600000 ⟨[wAlert], []⟩ wAlert).st
          (wEngine1.processAlert ⟨[], []⟩ 600000 ⟨[wAlert], []⟩
            wAlert).alert).alert =
        (wEngine1.processAlert ⟨[], []⟩ 600000 ⟨[wAlert], []⟩ wAlert).alert ∧
      (wEngine1.processAlert ⟨[], []⟩ 700000
          (wEngine1.processAlert ⟨[], []⟩ 600000 ⟨[wAlert], []⟩ wAlert).st
          (wEngine1.processAlert ⟨[], []⟩ 600000 ⟨[wAlert], []⟩
            wAlert).alert).st =
        (wEngine1.processAlert ⟨[], []⟩ 600000 ⟨[wAlert], []⟩ wAlert).st ∧
      (wEngine1.processAlert ⟨[], []⟩ 600000 ⟨[wAlert], []⟩
          wAlert).st.history =
        [engineEntry wAlert Status.OPEN Status.ESCALATED
          (wEngine1.evaluateAlert ⟨600000, [wAlert]⟩ wAlert)]) :=
  ⟨⟨by decide, by decide, by decide⟩,
    claim_c4_second_call_noop wEngine1 ⟨[], []⟩ ⟨[], []⟩ 600000 700000
      ⟨[wAlert], []⟩ wAlert (by decide) (by decide) (by decide) (by decide)
      (by decide)⟩
